import Mathlib

/-!
Verification development for the Tekdaqc firmware calibration table
(`Tekdaqc_CalibrationTable.c`), the runtime calibration engine
(`Tekdaqc_Calibration.c`) and the command interpreter
(`Tekdaqc_CommandInterpreter.c`).

The C code is shallowly embedded: C `float` is modelled as `ℚ` (exact
arithmetic; every concrete instance used in a theorem is exactly
representable), machine integers as `ℕ` with explicit `% 2^32` where
wraparound matters, flash memory as a function from byte addresses to
stored words, and flash-programming calls as an explicit log of
operations paired with a status oracle.  Constants that live in header
files outside this tree (`CAL_DATA_START_ADDR`, the buffer offset, the
serial-number block address/length, ...) are kept abstract as fields of
a `CalConsts` record.
-/

namespace Tekdaqc

/-- STM32 flash operation status (subset of the `FLASH_Status` enum used
by the calibration table code). -/
inductive FLASH_Status where
  | FLASH_BUSY
  | FLASH_ERROR_WRP
  | FLASH_ERROR_PROGRAM
  | FLASH_COMPLETE
  deriving DecidableEq, Repr

/-- A single flash-programming call issued by the calibration code:
`FLASH_ProgramWord` with a 32-bit datum (temperatures are float words,
so the datum is kept as `ℚ`), or `FLASH_ProgramByte`. -/
inductive ProgOp where
  | word (addr : Nat) (data : ℚ)
  | byte (addr : Nat) (data : Char)
  deriving DecidableEq

/-- The ADS1256 sample-rate enum.  The sixteen real enumerators are the
named constructors; `SPS_OUT_OF_RANGE` stands for any value of the
underlying C enum type outside the defined enumerators (the value that
reaches the `default` branch of the `switch` statements). -/
inductive ADS1256_SPS_t where
  | ADS1256_SPS_30000
  | ADS1256_SPS_15000
  | ADS1256_SPS_7500
  | ADS1256_SPS_3750
  | ADS1256_SPS_2000
  | ADS1256_SPS_1000
  | ADS1256_SPS_500
  | ADS1256_SPS_100
  | ADS1256_SPS_60
  | ADS1256_SPS_50
  | ADS1256_SPS_30
  | ADS1256_SPS_25
  | ADS1256_SPS_15
  | ADS1256_SPS_10
  | ADS1256_SPS_5
  | ADS1256_SPS_2_5
  | SPS_OUT_OF_RANGE
  deriving DecidableEq, Repr

/-- The ADS1256 PGA (gain) enum; `PGA_OUT_OF_RANGE` stands for any
unmapped value of the underlying C enum type. -/
inductive ADS1256_PGA_t where
  | ADS1256_PGAx1
  | ADS1256_PGAx2
  | ADS1256_PGAx4
  | ADS1256_PGAx8
  | ADS1256_PGAx16
  | ADS1256_PGAx32
  | ADS1256_PGAx64
  | PGA_OUT_OF_RANGE
  deriving DecidableEq, Repr

/-- The ADS1256 input-buffer enum; `BUFFER_OUT_OF_RANGE` stands for any
unmapped value of the underlying C enum type. -/
inductive ADS1256_BUFFER_t where
  | ADS1256_BUFFER_ENABLED
  | ADS1256_BUFFER_DISABLED
  | BUFFER_OUT_OF_RANGE
  deriving DecidableEq, Repr

/-- Board/storage constants defined in headers that are not part of this
tree (`Tekdaqc_BSP.h`, `Tekdaqc_CalibrationTable.h`).  They are kept
abstract; facts about them that a theorem needs are taken as
hypotheses justified by the specification (for example the buffer
offset is nonzero exactly when the buffer capability is enabled). -/
structure CalConsts where
  CAL_TEMP_LOW_ADDR : Nat
  CAL_TEMP_HIGH_ADDR : Nat
  CAL_TEMP_STEP_ADDR : Nat
  CAL_DATA_START_ADDR : Nat
  CALIBRATION_BUFFER_OFFSET : Nat
  BOARD_SERIAL_NUM_ADDR : Nat
  BOARD_SERIAL_NUM_LENGTH : Nat

/-- The mutable state of `Tekdaqc_CalibrationTable.c`: the persisted
header fields as read at init, the validity flag, the two RAM tables
(indexed by the canonical rate/gain/buffer indices) and the persisted
flash region (a map from byte address to the 32-bit word fetched by a
`*(__IO uint32_t*)` read at that address). -/
structure CalState where
  CAL_TEMP_LOW : ℚ
  CAL_TEMP_HIGH : ℚ
  CAL_TEMP_STEP : ℚ
  CALIBRATION_VALID : Bool
  baseGainCalibrations : Nat → Nat → Nat → Nat
  offsetCalibrations : Nat → Nat → Nat → Nat
  flash : Nat → Nat

/-- C conversion of a `float` to `uint32_t`.  For values in `[0, 2^32)`
this is truncation toward zero, which coincides with `Int.floor` on the
nonnegative values; conversions outside that range are undefined
behavior in the source and are totalized here by wraparound. -/
def floatToUint32 (q : ℚ) : Nat := (Int.floor q).toNat % 2 ^ 32

/-- C conversion of a `float` to `uint8_t`, totalized the same way as
`floatToUint32`. -/
def floatToUint8 (q : ℚ) : Nat := (Int.floor q).toNat % 2 ^ 8

/-- `ComputeOffset` (Tekdaqc_CalibrationTable.c:110-127): the address
offset of a calibration record.  Only the buffer setting contributes;
the rate, gain and temperature parameters are accepted and ignored
exactly as in the source (the unmapped-buffer `default` branch emits a
telnet error message and leaves the offset at 0). -/
def ComputeOffset (c : CalConsts) (rate : ADS1256_SPS_t) (gain : ADS1256_PGA_t)
    (buffer : ADS1256_BUFFER_t) (temperature : ℚ) : Nat :=
  match buffer with
  | .ADS1256_BUFFER_ENABLED => c.CALIBRATION_BUFFER_OFFSET
  | .ADS1256_BUFFER_DISABLED => 0
  | .BUFFER_OUT_OF_RANGE => 0

/-- `InterpolateValue` (Tekdaqc_CalibrationTable.c:138-141):
`uint32_t value = low + (high - low) * factor;` — the subtraction is
32-bit unsigned wraparound, the product and sum are computed in float,
and the result is converted back to `uint32_t`. -/
def InterpolateValue (low high : Nat) (factor : ℚ) : Nat :=
  floatToUint32 ((low : ℚ) + (((high + 2 ^ 32 - low % 2 ^ 32) % 2 ^ 32 : Nat) : ℚ) * factor)

/-- `ComputeTableIndices` (Tekdaqc_CalibrationTable.c:143-237).  The
three extra `Nat` arguments are the values held by the caller's three
local index variables before the call (they are written through
pointers in C).  The gain `default` branch stores 0 through the output
pointer, but the rate `default` branch executes `rate_index = 0U;`,
assigning the null pointer constant to the local pointer parameter
instead of storing through it — so on an unmapped rate the caller's
rate variable keeps its prior value `rate_index0`. -/
def ComputeTableIndices (rate_index0 gain_index0 buffer_index0 : Nat)
    (rate : ADS1256_SPS_t) (gain : ADS1256_PGA_t) (buffer : ADS1256_BUFFER_t) :
    Nat × Nat × Nat :=
  let buffer_index : Nat :=
    if buffer = .ADS1256_BUFFER_ENABLED then 0 else 1
  let gain_index : Nat :=
    match gain with
    | .ADS1256_PGAx1 => 0
    | .ADS1256_PGAx2 => 1
    | .ADS1256_PGAx4 => 2
    | .ADS1256_PGAx8 => 3
    | .ADS1256_PGAx16 => 4
    | .ADS1256_PGAx32 => 5
    | .ADS1256_PGAx64 => 6
    | .PGA_OUT_OF_RANGE => 0
  let rate_index : Nat :=
    match rate with
    | .ADS1256_SPS_30000 => 0
    | .ADS1256_SPS_15000 => 1
    | .ADS1256_SPS_7500 => 2
    | .ADS1256_SPS_3750 => 3
    | .ADS1256_SPS_2000 => 4
    | .ADS1256_SPS_1000 => 5
    | .ADS1256_SPS_500 => 6
    | .ADS1256_SPS_100 => 7
    | .ADS1256_SPS_60 => 8
    | .ADS1256_SPS_50 => 9
    | .ADS1256_SPS_30 => 10
    | .ADS1256_SPS_25 => 11
    | .ADS1256_SPS_15 => 12
    | .ADS1256_SPS_10 => 13
    | .ADS1256_SPS_5 => 14
    | .ADS1256_SPS_2_5 => 15
    | .SPS_OUT_OF_RANGE => rate_index0
  (rate_index, gain_index, buffer_index)
  -- the unused gain_index0 / buffer_index0 record that those locals are
  -- always overwritten; only the rate default leaves its local untouched

/-- `Tekdaqc_Calibration_SetBaseGainValue`
(Tekdaqc_CalibrationTable.c:253-260).  The caller's three local index
variables are uninitialized in the source, hence the arbitrary
`rate_index0 gain_index0 buffer_index0` arguments. -/
def Tekdaqc_Calibration_SetBaseGainValue (st : CalState)
    (rate_index0 gain_index0 buffer_index0 : Nat) (val : Nat)
    (rate : ADS1256_SPS_t) (gain : ADS1256_PGA_t) (buffer : ADS1256_BUFFER_t) :
    CalState :=
  let idx := ComputeTableIndices rate_index0 gain_index0 buffer_index0 rate gain buffer
  { st with
    baseGainCalibrations := fun a b d =>
      if a = idx.1 ∧ b = idx.2.1 ∧ d = idx.2.2 then val
      else st.baseGainCalibrations a b d }

/-- `Tekdaqc_GetOffsetCalibration` (Tekdaqc_CalibrationTable.c:342-349);
the three locals are uninitialized in the source. -/
def Tekdaqc_GetOffsetCalibration (st : CalState)
    (rate_index0 gain_index0 buffer_index0 : Nat)
    (rate : ADS1256_SPS_t) (gain : ADS1256_PGA_t) (buffer : ADS1256_BUFFER_t) : Nat :=
  let idx := ComputeTableIndices rate_index0 gain_index0 buffer_index0 rate gain buffer
  st.offsetCalibrations idx.1 idx.2.1 idx.2.2

/-- The clamped temperature computed by `Tekdaqc_GetGainCalibration`
(Tekdaqc_CalibrationTable.c:300-315): an out-of-range request is
replaced with the nearest bound. -/
def getGainClampedTemp (st : CalState) (temperature : ℚ) : ℚ :=
  if temperature < st.CAL_TEMP_LOW ∨ temperature > st.CAL_TEMP_HIGH then
    if temperature < st.CAL_TEMP_LOW then st.CAL_TEMP_LOW else st.CAL_TEMP_HIGH
  else temperature

/-- The two flash addresses fetched by `Tekdaqc_GetGainCalibration`
(Tekdaqc_CalibrationTable.c:317-330): `num_temp_steps` is the float
quotient `temperature / CAL_TEMP_STEP` cast to `uint8_t`, the "low" and
"high" anchor temperatures are `CAL_TEMP_LOW * num_temp_steps` and
`CAL_TEMP_HIGH * num_temp_steps`, and each address is
`CAL_DATA_START_ADDR + 4 * ComputeOffset(...)` at the respective anchor
temperature. -/
def getGainAnchorAddresses (c : CalConsts) (st : CalState)
    (rate : ADS1256_SPS_t) (gain : ADS1256_PGA_t) (buffer : ADS1256_BUFFER_t)
    (temperature : ℚ) : Nat × Nat :=
  let t := getGainClampedTemp st temperature
  let num_temp_steps : Nat := floatToUint8 (t / st.CAL_TEMP_STEP)
  let low_temp : ℚ := st.CAL_TEMP_LOW * num_temp_steps
  let high_temp : ℚ := st.CAL_TEMP_HIGH * num_temp_steps
  (c.CAL_DATA_START_ADDR + 4 * ComputeOffset c rate gain buffer low_temp,
   c.CAL_DATA_START_ADDR + 4 * ComputeOffset c rate gain buffer high_temp)

/-- `Tekdaqc_GetGainCalibration` (Tekdaqc_CalibrationTable.c:287-332).
The three index locals are initialized to 0 in the source.  When the
validity flag is unset the RAM base gain alone is returned; otherwise
the temperature is clamped into range, two flash words are fetched at
the anchor addresses and the result is
`baseGain + InterpolateValue(data_low, data_high, factor)` with
`factor = (temperature - CAL_TEMP_LOW) / CAL_TEMP_STEP`. -/
def Tekdaqc_GetGainCalibration (c : CalConsts) (st : CalState)
    (rate : ADS1256_SPS_t) (gain : ADS1256_PGA_t) (buffer : ADS1256_BUFFER_t)
    (temperature : ℚ) : Nat :=
  let idx := ComputeTableIndices 0 0 0 rate gain buffer
  let baseGain := st.baseGainCalibrations idx.1 idx.2.1 idx.2.2
  if st.CALIBRATION_VALID ≠ true then baseGain
  else
    let t := getGainClampedTemp st temperature
    let factor : ℚ := (t - st.CAL_TEMP_LOW) / st.CAL_TEMP_STEP
    let addrs := getGainAnchorAddresses c st rate gain buffer temperature
    let data_low := st.flash addrs.1
    let data_high := st.flash addrs.2
    (baseGain + InterpolateValue data_low data_high factor) % 2 ^ 32

/-- `Tekdaqc_SetSerialNumber` (Tekdaqc_CalibrationTable.c:426-447).
Returns the final `FLASH_Status` together with the list of
byte-program operations issued, in order.  `prog` is the status the
storage medium reports for each operation.  Note the source indexes
`serial[i]` with `i` running over the *address* range; reads past the
end of the supplied string are modelled with a default character. -/
def Tekdaqc_SetSerialNumber (c : CalConsts) (prog : ProgOp → FLASH_Status)
    (calibrationModeEnabled : Bool) (serial : List Char) :
    FLASH_Status × List ProgOp :=
  if calibrationModeEnabled = false then (.FLASH_ERROR_WRP, [])
  else
    let retval : FLASH_Status :=
      if serial.length < c.BOARD_SERIAL_NUM_LENGTH then .FLASH_ERROR_PROGRAM
      else .FLASH_COMPLETE
    if retval = .FLASH_COMPLETE then
      let ops := (List.range c.BOARD_SERIAL_NUM_LENGTH).map fun k =>
        ProgOp.byte (c.BOARD_SERIAL_NUM_ADDR + k)
          (serial.getD (c.BOARD_SERIAL_NUM_ADDR + k) 'A')
      let final := ops.foldl
        (fun r op => if prog op ≠ .FLASH_COMPLETE then prog op else r) retval
      (final, ops)
    else (retval, [])

/-- `Tekdaqc_SetCalibrationLowTemperature`
(Tekdaqc_CalibrationTable.c:457-464). -/
def Tekdaqc_SetCalibrationLowTemperature (c : CalConsts)
    (prog : ProgOp → FLASH_Status) (calibrationModeEnabled : Bool) (temp : ℚ) :
    FLASH_Status × List ProgOp :=
  if calibrationModeEnabled = false then (.FLASH_ERROR_WRP, [])
  else
    let op := ProgOp.word c.CAL_TEMP_LOW_ADDR temp
    (prog op, [op])

/-- `Tekdaqc_SetCalibrationHighTemperature`
(Tekdaqc_CalibrationTable.c:474-481). -/
def Tekdaqc_SetCalibrationHighTemperature (c : CalConsts)
    (prog : ProgOp → FLASH_Status) (calibrationModeEnabled : Bool) (temp : ℚ) :
    FLASH_Status × List ProgOp :=
  if calibrationModeEnabled = false then (.FLASH_ERROR_WRP, [])
  else
    let op := ProgOp.word c.CAL_TEMP_HIGH_ADDR temp
    (prog op, [op])

/-- `Tekdaqc_SetCalibrationStepTemperature`
(Tekdaqc_CalibrationTable.c:490-497). -/
def Tekdaqc_SetCalibrationStepTemperature (c : CalConsts)
    (prog : ProgOp → FLASH_Status) (calibrationModeEnabled : Bool) (temp : ℚ) :
    FLASH_Status × List ProgOp :=
  if calibrationModeEnabled = false then (.FLASH_ERROR_WRP, [])
  else
    let op := ProgOp.word c.CAL_TEMP_STEP_ADDR temp
    (prog op, [op])

/-- `Tekdaqc_SetGainCalibration` (Tekdaqc_CalibrationTable.c:510-518).
Note the source programs the word at address `ComputeOffset(...)`
itself: `uint32_t addr = ComputeOffset(rate, gain, buffer, temperature);
FLASH_Status status = FLASH_ProgramWord(addr, cal);` — the raw table
offset is used as the absolute flash address. -/
def Tekdaqc_SetGainCalibration (c : CalConsts) (prog : ProgOp → FLASH_Status)
    (calibrationModeEnabled : Bool) (cal : Nat) (rate : ADS1256_SPS_t)
    (gain : ADS1256_PGA_t) (buffer : ADS1256_BUFFER_t) (temperature : ℚ) :
    FLASH_Status × List ProgOp :=
  if calibrationModeEnabled = false then (.FLASH_ERROR_WRP, [])
  else
    let addr := ComputeOffset c rate gain buffer temperature
    let op := ProgOp.word addr (cal : ℚ)
    (prog op, [op])

end Tekdaqc

namespace Tekdaqc

/-- The command-level error enum `Tekdaqc_Command_Error_t`. -/
inductive Tekdaqc_Command_Error_t where
  | ERR_COMMAND_OK
  | ERR_COMMAND_BAD_PARAM
  | ERR_COMMAND_BAD_COMMAND
  | ERR_COMMAND_PARSE_ERROR
  | ERR_COMMAND_FUNCTION_ERROR
  | ERR_COMMAND_UNKNOWN_ERROR
  | ERR_COMMAND_ADC_INVALID_OPERATION
  | ERR_COMMAND_DI_INVALID_OPERATION
  | ERR_COMMAND_DO_INVALID_OPERATION
  deriving DecidableEq, Repr

/-- A write of one message line to the telnet transport
(`TelnetWriteErrorMessage` / `TelnetWriteStatusMessage`). -/
inductive TelnetWrite where
  | errorMessage
  | statusMessage
  deriving DecidableEq, Repr

/-- `ProcessCommandError` (Tekdaqc_CommandInterpreter.c:688-730): every
branch of the switch formats `TOSTRING_BUFFER` and then exactly one
telnet write is issued — a status message for `ERR_COMMAND_OK`
(`isErrored` is cleared only there), an error message for every other
value, including the `default` branch. -/
def ProcessCommandError (error : Tekdaqc_Command_Error_t) : List TelnetWrite :=
  match error with
  | .ERR_COMMAND_OK => [.statusMessage]
  | _ => [.errorMessage]

/-- `Command_ParseLine` (Tekdaqc_CommandInterpreter.c:586-652), modelled
as the list of status/response lines emitted for the completed line in
`interpreter.command_buffer`.  `maxPart` is `MAX_COMMANDPART_LENGTH`
(defined in the missing header, kept abstract) and `execResult` is the
`Tekdaqc_Command_Error_t` that `ExecuteCommand` returns for the parsed
command.  `COMMAND_DELIMETER` is the single character `0x20`; `count`
is the number of delimiter occurrences; a line with arguments whose
command token length (`strcspn`) equals `maxPart`, or an argument-free
line longer than `maxPart - 1`, is discarded (`ClearCommandBuffer` and
`return`) without any response; otherwise `ProcessCommand` runs and
`ProcessCommandError` emits the response for `execResult`. -/
def Command_ParseLine (maxPart : Nat) (execResult : Tekdaqc_Command_Error_t)
    (buf : List Char) : List TelnetWrite :=
  let count := (buf.filter (fun ch => ch = ' ')).length
  if count > 0 then
    let command_end := (buf.takeWhile (fun ch => ch ≠ ' ')).length
    if command_end = maxPart then []
    else ProcessCommandError execResult
  else
    if buf.length > maxPart - 1 then []
    else ProcessCommandError execResult

/-- `InputArgsCheck` (Tekdaqc_CommandInterpreter.c:787-809): fails when
the supplied count exceeds the command's parameter count, then scans
each supplied key for membership in the parameter list, failing on the
first key that matches no parameter.  `keys` holds the `count` supplied
keys and `params` the command's `num_params` declared keys. -/
def InputArgsCheck (keys : List String) (params : List String) : Bool :=
  if keys.length > params.length then false
  else keys.all fun k => params.contains k

/-- The channel-list classification enum `Channel_List_t`. -/
inductive Channel_List_t where
  | SINGLE_CHANNEL
  | CHANNEL_RANGE
  | CHANNEL_SET
  | ALL_CHANNELS
  deriving DecidableEq, Repr

/-- `GetChannelListType` (Tekdaqc_CommandInterpreter.c:817-827): `ALL`
literal first, then presence of the set delimiter `,`, then the range
delimiter `-`, else a single channel. -/
def GetChannelListType (arg : List Char) : Channel_List_t :=
  if arg = [ 'A', 'L', 'L' ] then .ALL_CHANNELS
  else if arg.contains ',' then .CHANNEL_SET
  else if arg.contains '-' then .CHANNEL_RANGE
  else .SINGLE_CHANNEL

/-- Decimal-digit run parser underlying the `strtol` model. -/
def parseDigits : List Char → Nat → Nat × List Char
  | [], acc => (acc, [])
  | ch :: rest, acc =>
    if ch.isDigit then parseDigits rest (acc * 10 + (ch.toNat - 48))
    else (acc, ch :: rest)

/-- Model of `strtol(s, &ptr, 10)` restricted to the shapes that occur
in the channel-selector strings: an optional leading minus sign
followed by decimal digits.  Returns the parsed value and the unread
remainder (`ptr`); with no convertible prefix it returns 0 and leaves
`ptr` at the start, as `strtol` does. -/
def strtol (s : List Char) : Int × List Char :=
  match s with
  | '-' :: rest =>
    if (rest.headD ' ').isDigit then
      let p := parseDigits rest 0
      (-(p.1 : Int), p.2)
    else (0, s)
  | _ =>
    if (s.headD ' ').isDigit then
      let p := parseDigits s 0
      ((p.1 : Int), p.2)
    else (0, s)

/-- The `CHANNEL_SET` counting loop of `BuildAnalogInputList`
(Tekdaqc_CommandInterpreter.c:864-871):

`while (value != 0L) { ++count; if (*ptr == SET_DELIMETER) { str = ptr + 1; }
value = strtol(str, &ptr, 10); }`

`count` is a `uint8_t` (wraps mod 256).  The loop is given explicit
fuel; `none` means the iteration bound was exhausted without the loop
condition ever becoming false. -/
def AnalogSetCountLoop (fuel : Nat) (value : Int) (str ptr : List Char)
    (count : Nat) : Option Nat :=
  match fuel with
  | 0 => none
  | fuel + 1 =>
    if value = 0 then some count
    else
      let count := (count + 1) % 256
      let str := if ptr.headD ' ' = ',' then ptr.tail else str
      let next := strtol str
      AnalogSetCountLoop fuel next.1 str next.2 count

/-- Entry into the `CHANNEL_SET` counting loop of
`BuildAnalogInputList`: `value = strtol(param, &ptr, 10);` then the
loop above.  The C local `str` is `NULL` at entry and is only assigned
before its first use when `*ptr` is the set delimiter; it is kept
abstract as `str0` (the theorems quantify over it). -/
def BuildAnalogSetCount (fuel : Nat) (str0 param : List Char) : Option Nat :=
  let first := strtol param
  AnalogSetCountLoop fuel first.1 str0 first.2 0

/-- The function-level error enum `Tekdaqc_Function_Error_t` (subset
used by the calibration engine). -/
inductive Tekdaqc_Function_Error_t where
  | ERR_FUNCTION_OK
  | ERR_AIN_PARSE_ERROR
  | ERR_AIN_PARSE_MISSING_KEY
  deriving DecidableEq, Repr

/-- `GetIndexOfArgument` (Tekdaqc_CommandInterpreter.c:2098-2108): the
index of the first key equal to `target`, or `-1`. -/
def GetIndexOfArgument (keys : List String) (target : String) : Int :=
  match keys.findIdx? (fun k => k = target) with
  | some i => (i : Int)
  | none => -1

/-- `SYSTEM_CAL_PARAMS` (Tekdaqc_CommandInterpreter.c:151).  The
`PARAMETER_*` macros live in the missing header; their string values
are taken from the spec's command table `SYSTEM_CAL{BUFFER,RATE,GAIN}`. -/
def SYSTEM_CAL_PARAMS : List String := ["BUFFER", "RATE", "GAIN"]

/-- `SYSTEM_GCAL_PARAMS` (Tekdaqc_CommandInterpreter.c:146); string
values from the spec's command table `SYSTEM_GCAL{BUFFER,RATE,GAIN,INPUT}`. -/
def SYSTEM_GCAL_PARAMS : List String := ["BUFFER", "RATE", "GAIN", "INPUT"]

/-- The external ADS1256 driver string parsers (the driver is an
excluded collaborator, so the parsers are abstract). -/
structure ADCParsers where
  StringToBuffer : String → ADS1256_BUFFER_t
  StringToDataRate : String → ADS1256_SPS_t
  StringToPGA : String → ADS1256_PGA_t

/-- `SetADCParameters` (Tekdaqc_Calibration.c:67-104): starts from the
defaults ×1 gain / 60 SPS / buffer disabled, loops over the three
`SYSTEM_CAL_PARAMS` keys, parses the value of each key that is present,
and `continue`s for each absent key (the `else if (i == 0 || i == 1 ||
i == 2 || i == 3)` arm, which covers every loop index, so the
missing-key arm is unreachable).  Returns the error status and the
parameters applied to the ADC configuration. -/
def SetADCParameters (p : ADCParsers) (keys values : List String) :
    Tekdaqc_Function_Error_t × (ADS1256_BUFFER_t × ADS1256_SPS_t × ADS1256_PGA_t) :=
  let init : Tekdaqc_Function_Error_t × (ADS1256_BUFFER_t × ADS1256_SPS_t × ADS1256_PGA_t) :=
    (.ERR_FUNCTION_OK, (.ADS1256_BUFFER_DISABLED, .ADS1256_SPS_60, .ADS1256_PGAx1))
  [0, 1, 2].foldl
    (fun acc i =>
      let retval := acc.1
      let cfg := acc.2
      let index := GetIndexOfArgument keys (SYSTEM_CAL_PARAMS.getD i "")
      if 0 ≤ index then
        let v := values.getD index.toNat ""
        match i with
        | 0 => (retval, (p.StringToBuffer v, cfg.2.1, cfg.2.2))
        | 1 => (retval, (cfg.1, p.StringToDataRate v, cfg.2.2))
        | 2 => (retval, (cfg.1, cfg.2.1, p.StringToPGA v))
        | _ => (.ERR_AIN_PARSE_ERROR, cfg)
      else acc)
    init

/-- `PerformSystemGainCalibration` (Tekdaqc_Calibration.c:132-160):
applies `SetADCParameters`, then loops over the four
`SYSTEM_GCAL_PARAMS` keys.  A present key with `i == 3` (INPUT) parses
the input selector (the source calls `ADS1256_StringToBuffer` on it); a
present key with any other index falls into the switch `default` and
sets `ERR_AIN_PARSE_ERROR`; an absent key `continue`s for `i` in 0..2
and sets `ERR_AIN_PARSE_MISSING_KEY` for `i == 3`.  Finally
`ADC_GainCalibrate(input)` is invoked unconditionally.  The result is
the returned status, whether the hardware gain calibration was invoked,
and the input argument it received (`none` is the initial `EXTERNAL_0`). -/
def PerformSystemGainCalibration (p : ADCParsers) (keys values : List String) :
    Tekdaqc_Function_Error_t × (Bool × Option ADS1256_BUFFER_t) :=
  let retval0 := (SetADCParameters p keys values).1
  let res := [0, 1, 2, 3].foldl
    (fun (acc : Tekdaqc_Function_Error_t × Option ADS1256_BUFFER_t) i =>
      let retval := acc.1
      let input := acc.2
      let index := GetIndexOfArgument keys (SYSTEM_GCAL_PARAMS.getD i "")
      if 0 ≤ index then
        match i with
        | 3 => (retval, some (p.StringToBuffer (values.getD index.toNat "")))
        | _ => (.ERR_AIN_PARSE_ERROR, input)
      else if i = 0 ∨ i = 1 ∨ i = 2 then acc
      else (.ERR_AIN_PARSE_MISSING_KEY, input))
    (retval0, none)
  (res.1, (true, res.2))

end Tekdaqc

namespace Tekdaqc

/-- Concrete constants for evaluating the gain lookup: the persisted
data region starts at address 1000 and the buffer offset is 40. -/
def c1Consts : CalConsts := ⟨0, 4, 8, 1000, 40, 0, 16⟩

/-- Concrete calibration state: valid data for temperatures 20..50 in
steps of 10, zero RAM base gains, and a flash image whose word at the
data-region start (address 1000) is 100 while every other address holds
777. -/
def c1State : CalState :=
  { CAL_TEMP_LOW := 20
    CAL_TEMP_HIGH := 50
    CAL_TEMP_STEP := 10
    CALIBRATION_VALID := true
    baseGainCalibrations := fun _ _ _ => 0
    offsetCalibrations := fun _ _ _ => 0
    flash := fun a => if a = 1000 then 100 else 777 }

/-- A concrete instantiation of the abstract ADS1256 string parsers. -/
def constParsers : ADCParsers :=
  ⟨fun _ => .ADS1256_BUFFER_DISABLED, fun _ => .ADS1256_SPS_60, fun _ => .ADS1256_PGAx1⟩

/-- A concrete calibration state whose persisted-data validity flag is
unset (the freshly-erased, not-yet-calibrated board state). -/
def invalidCalState : CalState :=
  { CAL_TEMP_LOW := 0
    CAL_TEMP_HIGH := 0
    CAL_TEMP_STEP := 0
    CALIBRATION_VALID := false
    baseGainCalibrations := fun _ _ _ => 0
    offsetCalibrations := fun _ _ _ => 0
    flash := fun _ => 0 }

/-- The length condition under which `Command_ParseLine` does not
discard the line: with arguments present, the command token length must
differ from `MAX_COMMANDPART_LENGTH`; without arguments, the whole line
must fit in `MAX_COMMANDPART_LENGTH - 1` characters. -/
def commandTokenFits (maxPart : Nat) (buf : List Char) : Prop :=
  if (buf.filter (fun ch => ch = ' ')).length > 0 then
    (buf.takeWhile (fun ch => ch ≠ ' ')).length ≠ maxPart
  else ¬ buf.length > maxPart - 1

instance (maxPart : Nat) (buf : List Char) : Decidable (commandTokenFits maxPart buf) := by
  unfold commandTokenFits
  infer_instance

end Tekdaqc

namespace Tekdaqc

/-- The canonical table indices do not depend on the callers' previous
local index values as long as the rate is one of the sixteen defined
enumerators (the unmapped-rate default branch is the only path that
leaves the caller's rate variable untouched). -/
theorem ComputeTableIndices_initIrrelevant
    (a b d a' b' d' : Nat) (rate : ADS1256_SPS_t) (gain : ADS1256_PGA_t)
    (buffer : ADS1256_BUFFER_t) (h : rate ≠ .SPS_OUT_OF_RANGE) :
    ComputeTableIndices a b d rate gain buffer =
      ComputeTableIndices a' b' d' rate gain buffer := by
  cases rate
  case SPS_OUT_OF_RANGE => exact absurd rfl h
  all_goals rfl

end Tekdaqc

namespace Tekdaqc

/-- Claim C6: with calibration mode not enabled, each of the five
persisted-writing operations — serial number, low/high/step temperature
and gain calibration — returns `FLASH_ERROR_WRP` and issues no flash
programming operation whatsoever; all five are gated by the same
leading check of the mode flag. -/
theorem persistedWriters_lockedMode_writeProtected :
    ∀ (c : CalConsts) (prog : ProgOp → FLASH_Status) (serial : List Char)
      (tl th ts : ℚ) (cal : Nat) (rate : ADS1256_SPS_t) (gain : ADS1256_PGA_t)
      (buffer : ADS1256_BUFFER_t) (temperature : ℚ),
      Tekdaqc_SetSerialNumber c prog false serial = (.FLASH_ERROR_WRP, []) ∧
      Tekdaqc_SetCalibrationLowTemperature c prog false tl = (.FLASH_ERROR_WRP, []) ∧
      Tekdaqc_SetCalibrationHighTemperature c prog false th = (.FLASH_ERROR_WRP, []) ∧
      Tekdaqc_SetCalibrationStepTemperature c prog false ts = (.FLASH_ERROR_WRP, []) ∧
      Tekdaqc_SetGainCalibration c prog false cal rate gain buffer temperature =
        (.FLASH_ERROR_WRP, []) := by
  intros
  exact ⟨rfl, rfl, rfl, rfl, rfl⟩

/-- Claim C7: with calibration mode active, a serial string shorter
than `BOARD_SERIAL_NUM_LENGTH` makes `Tekdaqc_SetSerialNumber` return
`FLASH_ERROR_PROGRAM` with zero byte-program operations issued. -/
theorem Tekdaqc_SetSerialNumber_shortSerial
    (c : CalConsts) (prog : ProgOp → FLASH_Status) (serial : List Char)
    (h : serial.length < c.BOARD_SERIAL_NUM_LENGTH) :
    Tekdaqc_SetSerialNumber c prog true serial = (.FLASH_ERROR_PROGRAM, []) := by
  simp [Tekdaqc_SetSerialNumber, h]

/-- Witness for C7 at a concrete input: a three-character serial with a
sixteen-byte serial-number block. -/
theorem Tekdaqc_SetSerialNumber_shortSerial_witness :
    ([ 'A', 'B', 'C' ] : List Char).length <
        (⟨0, 4, 8, 1000, 40, 0, 16⟩ : CalConsts).BOARD_SERIAL_NUM_LENGTH ∧
      Tekdaqc_SetSerialNumber ⟨0, 4, 8, 1000, 40, 0, 16⟩
        (fun _ => .FLASH_COMPLETE) true [ 'A', 'B', 'C' ] =
        (.FLASH_ERROR_PROGRAM, []) :=
  ⟨by decide, Tekdaqc_SetSerialNumber_shortSerial _ _ _ (by decide)⟩

/-- Claim C3: the rate default of `ComputeTableIndices` does not store
slot 0 through the caller's output parameter — the caller's rate index
keeps its prior value (here 5) on an unmapped rate, while the unmapped
gain does default to the x1 slot (0) and the buffer index is written. -/
theorem ComputeTableIndices_unmappedRate_keepsCallerValue :
    ComputeTableIndices 5 7 9 .SPS_OUT_OF_RANGE .PGA_OUT_OF_RANGE
        .ADS1256_BUFFER_DISABLED = (5, 0, 1) ∧
      ComputeTableIndices 5 7 9 .SPS_OUT_OF_RANGE .ADS1256_PGAx1
        .ADS1256_BUFFER_ENABLED = (5, 0, 0) := by
  exact ⟨rfl, rfl⟩

/-- Claim C2: the address programmed by `Tekdaqc_SetGainCalibration` is
the raw `ComputeOffset` value itself, and with the buffer enabled (a
positive buffer offset, per the spec's addressing scheme) it can never
equal either flash address that `Tekdaqc_GetGainCalibration` later
fetches for the same rate/gain/buffer, which are
`CAL_DATA_START_ADDR + 4 * ComputeOffset(...)`. -/
theorem Tekdaqc_SetGainCalibration_addressNeverRead
    (c : CalConsts) (prog : ProgOp → FLASH_Status) (st : CalState) (cal : Nat)
    (rate : ADS1256_SPS_t) (gain : ADS1256_PGA_t) (tw tr : ℚ)
    (h : 0 < c.CALIBRATION_BUFFER_OFFSET) :
    (Tekdaqc_SetGainCalibration c prog true cal rate gain
        .ADS1256_BUFFER_ENABLED tw).2 =
      [ProgOp.word (ComputeOffset c rate gain .ADS1256_BUFFER_ENABLED tw) (cal : ℚ)] ∧
    ComputeOffset c rate gain .ADS1256_BUFFER_ENABLED tw ≠
      (getGainAnchorAddresses c st rate gain .ADS1256_BUFFER_ENABLED tr).1 ∧
    ComputeOffset c rate gain .ADS1256_BUFFER_ENABLED tw ≠
      (getGainAnchorAddresses c st rate gain .ADS1256_BUFFER_ENABLED tr).2 := by
  refine ⟨rfl, ?_, ?_⟩ <;>
    · simp only [ComputeOffset, getGainAnchorAddresses]
      omega

/-- Witness for C2 at concrete constants: buffer offset 40, data region
start 1000; the writer programs address 40 while the reader fetches
address 1160. -/
theorem Tekdaqc_SetGainCalibration_addressNeverRead_witness :
    0 < (c1Consts : CalConsts).CALIBRATION_BUFFER_OFFSET ∧
      ((Tekdaqc_SetGainCalibration c1Consts (fun _ => .FLASH_COMPLETE) true 7
          .ADS1256_SPS_1000 .ADS1256_PGAx2 .ADS1256_BUFFER_ENABLED 25).2 =
        [ProgOp.word (ComputeOffset c1Consts .ADS1256_SPS_1000 .ADS1256_PGAx2
            .ADS1256_BUFFER_ENABLED 25) (7 : ℚ)] ∧
      ComputeOffset c1Consts .ADS1256_SPS_1000 .ADS1256_PGAx2
          .ADS1256_BUFFER_ENABLED 25 ≠
        (getGainAnchorAddresses c1Consts c1State .ADS1256_SPS_1000 .ADS1256_PGAx2
            .ADS1256_BUFFER_ENABLED 30).1 ∧
      ComputeOffset c1Consts .ADS1256_SPS_1000 .ADS1256_PGAx2
          .ADS1256_BUFFER_ENABLED 25 ≠
        (getGainAnchorAddresses c1Consts c1State .ADS1256_SPS_1000 .ADS1256_PGAx2
            .ADS1256_BUFFER_ENABLED 30).2) :=
  ⟨by decide,
   Tekdaqc_SetGainCalibration_addressNeverRead c1Consts _ c1State 7 _ _ 25 30
     (by decide)⟩

/-- Claim C8: `InputArgsCheck` fails exactly when more keys are
supplied than the schema's arity or some supplied key is not in the
schema's key set; any 3 supplied keys against a 2-key schema are
rejected regardless of content; fewer keys than the arity, all of them
valid, always pass. -/
theorem InputArgsCheck_characterization :
    (∀ keys params : List String,
        InputArgsCheck keys params = false ↔
          params.length < keys.length ∨ ∃ k ∈ keys, k ∉ params) ∧
    (∀ keys params : List String, keys.length = 3 → params.length = 2 →
        InputArgsCheck keys params = false) ∧
    (∀ keys params : List String, keys.length < params.length →
        (∀ k ∈ keys, k ∈ params) → InputArgsCheck keys params = true) := by
  refine ⟨fun keys params => ?_, fun keys params h3 h2 => ?_, fun keys params hlt hmem => ?_⟩
  · unfold InputArgsCheck
    by_cases hgt : keys.length > params.length
    · simp [hgt]
    · rw [if_neg hgt]
      have hnotlt : ¬ params.length < keys.length := hgt
      simp [hnotlt, List.all_eq_false]
  · have hgt : keys.length > params.length := by omega
    unfold InputArgsCheck
    simp [hgt]
  · have hgt : ¬ keys.length > params.length := by omega
    unfold InputArgsCheck
    rw [if_neg hgt]
    simp only [List.all_eq_true]
    intro k hk
    simpa using hmem k hk

/-- Witness for C8: three supplied keys against the two-key
`READ_ANALOG_INPUT` schema are rejected. -/
theorem InputArgsCheck_characterization_witness :
    (["INPUT", "NUMBER", "EXTRA"] : List String).length = 3 ∧
      (["INPUT", "NUMBER"] : List String).length = 2 ∧
      InputArgsCheck ["INPUT", "NUMBER", "EXTRA"] ["INPUT", "NUMBER"] = false :=
  ⟨rfl, rfl, InputArgsCheck_characterization.2.1 _ _ rfl rfl⟩

end Tekdaqc

namespace Tekdaqc

/-- Counterexample for C5: calling the system gain calibration with no
arguments at all makes the INPUT-selector lookup fail
(`ERR_AIN_PARSE_MISSING_KEY`), yet the hardware routine
`ADC_GainCalibrate` is still invoked (the `true` flag), with the
initial `EXTERNAL_0` input. -/
theorem PerformSystemGainCalibration_parseErrorStillCalibrates :
    PerformSystemGainCalibration constParsers [] [] =
      (.ERR_AIN_PARSE_MISSING_KEY, (true, none)) := by
  decide

/-- Claim C5 (amended): `PerformSystemGainCalibration` invokes the
hardware gain-calibration routine unconditionally — parse errors are
reflected in the returned status but never abort before the
`ADC_GainCalibrate` call. -/
theorem PerformSystemGainCalibration_alwaysInvokesHardware :
    ∀ (p : ADCParsers) (keys values : List String),
      (PerformSystemGainCalibration p keys values).2.1 = true := by
  intro p keys values
  rfl

/-- Claim C10: with the persisted-data validity flag unset, writing a
base gain for any defined rate/gain/buffer setting and immediately
reading the gain calibration at any temperature returns exactly the
written value — a pure RAM round trip with no interpolation.  (An
unmapped rate is excluded: it falls into the `ComputeTableIndices`
default branch whose write index is the caller's indeterminate local.) -/
theorem setBaseGain_getGain_ramRoundTrip
    (c : CalConsts) (st : CalState) (r0 g0 b0 v : Nat)
    (rate : ADS1256_SPS_t) (gain : ADS1256_PGA_t) (buffer : ADS1256_BUFFER_t)
    (t : ℚ) (hrate : rate ≠ .SPS_OUT_OF_RANGE)
    (hvalid : st.CALIBRATION_VALID = false) :
    Tekdaqc_GetGainCalibration c
        (Tekdaqc_Calibration_SetBaseGainValue st r0 g0 b0 v rate gain buffer)
        rate gain buffer t = v := by
  have hidx := ComputeTableIndices_initIrrelevant r0 g0 b0 0 0 0 rate gain buffer hrate
  unfold Tekdaqc_GetGainCalibration Tekdaqc_Calibration_SetBaseGainValue
  rw [← hidx]
  simp [hvalid]

/-- Witness for C10 at a concrete input: write 42 for 1000 SPS / ×4 /
buffer disabled into the invalid-calibration state, read it back at
temperature 5. -/
theorem setBaseGain_getGain_ramRoundTrip_witness :
    (ADS1256_SPS_t.ADS1256_SPS_1000 ≠ .SPS_OUT_OF_RANGE) ∧
      invalidCalState.CALIBRATION_VALID = false ∧
      Tekdaqc_GetGainCalibration c1Consts
          (Tekdaqc_Calibration_SetBaseGainValue invalidCalState 3 1 2 42
            .ADS1256_SPS_1000 .ADS1256_PGAx4 .ADS1256_BUFFER_DISABLED)
          .ADS1256_SPS_1000 .ADS1256_PGAx4 .ADS1256_BUFFER_DISABLED 5 = 42 :=
  ⟨by decide, rfl,
   setBaseGain_getGain_ramRoundTrip c1Consts invalidCalState 3 1 2 42 _ _ _ 5
     (by decide) rfl⟩

end Tekdaqc

namespace Tekdaqc

/-- Counterexample for C4: a completed 32-character line with no space
delimiter, against `MAX_COMMANDPART_LENGTH = 32`, is discarded by
`Command_ParseLine` with zero status/response lines emitted — not the
one line the claim requires for every submitted line. -/
theorem Command_ParseLine_overlongLine_noResponse :
    (Command_ParseLine 32 .ERR_COMMAND_OK (List.replicate 32 'A')).length = 0 := by
  decide

/-- Claim C4 (amended): processing a completed line emits exactly one
status/response line whenever the command token passes the length
check, and emits none at all when the line is discarded for an
over-long command token. -/
theorem Command_ParseLine_responseDiscipline
    (maxPart : Nat) (e : Tekdaqc_Command_Error_t) (buf : List Char) :
    (commandTokenFits maxPart buf → (Command_ParseLine maxPart e buf).length = 1) ∧
      (¬ commandTokenFits maxPart buf → Command_ParseLine maxPart e buf = []) := by
  have hlen : (ProcessCommandError e).length = 1 := by cases e <;> rfl
  by_cases hc : (buf.filter (fun ch => ch = ' ')).length > 0
  · constructor
    · intro h
      rw [commandTokenFits, if_pos hc] at h
      simp only [ne_eq, decide_not] at h
      simp [Command_ParseLine, hc, h, hlen]
    · intro h
      rw [commandTokenFits, if_pos hc, not_not] at h
      simp only [ne_eq, decide_not] at h
      simp [Command_ParseLine, hc, h]
  · constructor
    · intro h
      rw [commandTokenFits, if_neg hc] at h
      simp [Command_ParseLine, hc, h, hlen]
    · intro h
      rw [commandTokenFits, if_neg hc, not_not] at h
      simp [Command_ParseLine, hc, h]

/-- Witness for C4 (amended) at a concrete input: the four-character
line `HALT` with part limit 32 yields exactly one response line. -/
theorem Command_ParseLine_responseDiscipline_witness :
    commandTokenFits 32 [ 'H', 'A', 'L', 'T' ] ∧
      (Command_ParseLine 32 .ERR_COMMAND_OK [ 'H', 'A', 'L', 'T' ]).length = 1 :=
  ⟨by decide,
   (Command_ParseLine_responseDiscipline 32 .ERR_COMMAND_OK
     [ 'H', 'A', 'L', 'T' ]).1 (by decide)⟩

end Tekdaqc

namespace Tekdaqc

/-- Once the set-counting loop has consumed the final list element
(state: value 7, `str` stuck on the trailing token `7`, `ptr` at the
end of the string), `str` is never advanced again — `*ptr` is the
terminating null, not the set delimiter — so `strtol` re-parses the
same token forever and the loop condition never becomes false. -/
theorem AnalogSetCountLoop_stuckAtLastToken :
    ∀ (fuel count : Nat), AnalogSetCountLoop fuel 7 [ '7' ] [] count = none := by
  intro fuel
  induction fuel with
  | zero => intro count; rfl
  | succ n ih =>
    intro count
    simp only [AnalogSetCountLoop, strtol, parseDigits]
    norm_num
    exact ih _

/-- From the loop state reached after the first two tokens of `1,3,7`
are consumed (value 3, `str` at `3,7`, `ptr` at `,7`), the loop steps
into the stuck state and never terminates. -/
theorem AnalogSetCountLoop_fromSecondToken :
    ∀ (fuel count : Nat),
      AnalogSetCountLoop fuel 3 [ '3', ',', '7' ] [ ',', '7' ] count = none := by
  intro fuel count
  cases fuel with
  | zero => rfl
  | succ n =>
    simp only [AnalogSetCountLoop, strtol, parseDigits]
    norm_num
    exact AnalogSetCountLoop_stuckAtLastToken n _

/-- From the loop state after the first token of `1,3,7` is consumed
(value 1, `ptr` at `,3,7`, `str` still the arbitrary entry value), the
loop never terminates for any fuel. -/
theorem AnalogSetCountLoop_fromFirstToken :
    ∀ (fuel count : Nat) (str0 : List Char),
      AnalogSetCountLoop fuel 1 str0 [ ',', '3', ',', '7' ] count = none := by
  intro fuel count str0
  cases fuel with
  | zero => rfl
  | succ n =>
    simp only [AnalogSetCountLoop, strtol, parseDigits]
    norm_num
    exact AnalogSetCountLoop_fromSecondToken n _

/-- Claim C9: the selector `1,3,7` is classified as a channel set, and
the counting loop of `BuildAnalogInputList` for it never terminates —
for every iteration bound the loop is still running, so the resolver
never populates the handle array at all. -/
theorem BuildAnalogInputList_setSelector_diverges :
    GetChannelListType [ '1', ',', '3', ',', '7' ] = .CHANNEL_SET ∧
      ∀ (fuel : Nat) (str0 : List Char),
        BuildAnalogSetCount fuel str0 [ '1', ',', '3', ',', '7' ] = none := by
  refine ⟨by decide, ?_⟩
  intro fuel str0
  simp only [BuildAnalogSetCount, strtol, parseDigits]
  norm_num
  exact AnalogSetCountLoop_fromFirstToken fuel 0 str0

end Tekdaqc

namespace Tekdaqc

/-- Claim C1 (code evaluation at the failing configuration): with valid
calibration data for 20..50 °C in steps of 10 and a flash image whose
word at the data-region start is 100 (all base gains zero, buffer
disabled), `Tekdaqc_GetGainCalibration` fetches both interpolation
anchors from the single temperature-independent address
`CAL_DATA_START_ADDR` and returns `base_gain + 100` for every
temperature — no pair of bracketing anchor records derived from the
floor and floor+1 temperature steps is ever selected. -/
theorem Tekdaqc_GetGainCalibration_temperatureIndependent :
    ∀ t : ℚ,
      getGainAnchorAddresses c1Consts c1State .ADS1256_SPS_1000 .ADS1256_PGAx1
          .ADS1256_BUFFER_DISABLED t = (1000, 1000) ∧
        Tekdaqc_GetGainCalibration c1Consts c1State .ADS1256_SPS_1000
          .ADS1256_PGAx1 .ADS1256_BUFFER_DISABLED t = 100 := by
  intro t
  constructor
  · simp [getGainAnchorAddresses, ComputeOffset, c1Consts]
  · simp only [Tekdaqc_GetGainCalibration, getGainAnchorAddresses, ComputeOffset,
      InterpolateValue, floatToUint32, ComputeTableIndices, c1Consts, c1State]
    norm_num
    decide

end Tekdaqc
